import Mathlib

-- Verification development for the StoreAPI ranking/filter subsystem.
-- Shallow embedding of the relevant Python sources:
--   ranking_index/models.py        (RankingIndex counters and decayed index)
--   store/models/product.py        (Product price/discount/status fields)
--   store/managers/product.py      (ProductManager.get_queryset ordering)
--   store/services/product.py      (get_products_by_filter, sort_products,
--                                   update_products_popularity_indexes)
--   store/services/sections.py     (set_promo_tag, update_best_prices_products)
--   store/views/catalog.py         (availability defaulting and filtering)
-- Database rows are modelled as Lean structures, querysets as lists, decimal
-- and float arithmetic as exact rational arithmetic, and exceptions (KeyError)
-- as Option results.

-- ---------------------------------------------------------------------------
-- ranking_index/models.py
-- ---------------------------------------------------------------------------

/-- Counter JSON blob of a RankingIndex row (ranking_index/models.py,
CounterDict: first_week, second_week, third_week). -/
structure CounterDict where
  first_week : ℕ
  second_week : ℕ
  third_week : ℕ
deriving DecidableEq, Repr

/-- Default counter value (ranking_index/models.py, get_default_counter_dict). -/
def get_default_counter_dict : CounterDict :=
  { first_week := 0, second_week := 0, third_week := 0 }

/-- A RankingIndex row: a decayed scalar index plus the weekly counters
(ranking_index/models.py, class RankingIndex). The decimal index column is
modelled as an exact rational. -/
structure RankingIndex where
  _index : ℚ
  _index_counter : CounterDict
deriving DecidableEq, Repr

/-- A freshly created RankingIndex row (ranking_index/services.py,
create_ranking_index): index 0 and default counters. -/
def create_ranking_index : RankingIndex :=
  { _index := 0, _index_counter := get_default_counter_dict }

/-- RankingIndex.index_counter_increment: adds count to the first_week counter
only. -/
def RankingIndex.index_counter_increment (r : RankingIndex) (count : ℕ) :
    RankingIndex :=
  { r with _index_counter :=
      { r._index_counter with
          first_week := r._index_counter.first_week + count } }

/-- RankingIndex._update_index_counters: shifts the weekly counters
(third_week from second_week, second_week from first_week, first_week to 0). -/
def RankingIndex._update_index_counters (r : RankingIndex) : RankingIndex :=
  { r with _index_counter :=
      { third_week := r._index_counter.second_week
        second_week := r._index_counter.first_week
        first_week := 0 } }

/-- RankingIndex.update_index: recomputes the index as
first_week * 0.5 + second_week * 0.3 + third_week * 0.2, then rotates the
counters via _update_index_counters. -/
def RankingIndex.update_index (r : RankingIndex) : RankingIndex :=
  ({ r with _index :=
      (r._index_counter.first_week : ℚ) * 0.5
      + (r._index_counter.second_week : ℚ) * 0.3
      + (r._index_counter.third_week : ℚ) * 0.2 })._update_index_counters

/-- A RankingIndex whose counters are the given triple and whose stored index
is 0 (the starting state used by the rotation claims). -/
def riOfCounters (f s t : ℕ) : RankingIndex :=
  { _index := 0,
    _index_counter := { first_week := f, second_week := s, third_week := t } }

-- ---------------------------------------------------------------------------
-- C1 / C2: RankingIndex decay and rotation
-- ---------------------------------------------------------------------------

/-- C1: for every RankingIndex with counter state (f, s, t), update_index sets
the stored index to exactly 0.5 * f + 0.3 * s + 0.2 * t, and afterwards the
counter state is (0, f, s): first_week reset to 0, second_week equal to the
old first_week, third_week equal to the old second_week. -/
theorem C1_update_index_decay (r : RankingIndex) :
    (r.update_index)._index
      = (r._index_counter.first_week : ℚ) * 0.5
        + (r._index_counter.second_week : ℚ) * 0.3
        + (r._index_counter.third_week : ℚ) * 0.2
    ∧ (r.update_index)._index_counter
      = { first_week := 0,
          second_week := r._index_counter.first_week,
          third_week := r._index_counter.second_week } := by
  exact ⟨rfl, rfl⟩

/-- C2 counterexample: starting from counter state (1, 0, 0) and calling
update_index three times yields counter state (0, 0, 0), not (0, 0, 1) as the
claim states; the state (0, 0, 1) is in fact reached already after the second
call. -/
theorem C2_counterexample :
    ((riOfCounters 1 0 0).update_index.update_index.update_index)._index_counter
      = { first_week := 0, second_week := 0, third_week := 0 }
    ∧ ((riOfCounters 1 0 0).update_index.update_index.update_index)._index_counter
      ≠ { first_week := 0, second_week := 0, third_week := 1 } := by
  exact ⟨rfl, by decide⟩

/-- Updating a RankingIndex whose counters are all zero and whose index is zero
is a no-op. -/
theorem update_index_zero_fixed :
    RankingIndex.update_index
        { _index := 0, _index_counter := { first_week := 0, second_week := 0, third_week := 0 } }
      = { _index := 0, _index_counter := { first_week := 0, second_week := 0, third_week := 0 } } := by
  unfold RankingIndex.update_index RankingIndex._update_index_counters
  norm_num

/-- C2 amended: starting a RankingIndex from counter state (N, 0, 0) and
calling update_index with no increments in between yields counter state
(0, 0, N) after the second call and (0, 0, 0) after the third call; the index
after the third call is 0.2 * N, and from the fourth call onward the index is
0 (and the counters stay at zero). -/
theorem C2_rotation_composition (N : ℕ) :
    ((riOfCounters N 0 0).update_index.update_index)._index_counter
      = { first_week := 0, second_week := 0, third_week := N }
    ∧ ((riOfCounters N 0 0).update_index.update_index.update_index)._index_counter
      = { first_week := 0, second_week := 0, third_week := 0 }
    ∧ ((riOfCounters N 0 0).update_index.update_index.update_index)._index
      = 0.2 * N
    ∧ ∀ k : ℕ,
        (RankingIndex.update_index^[4 + k] (riOfCounters N 0 0))._index = 0 := by
  refine ⟨rfl, rfl, ?_, ?_⟩
  · show ((0 : ℕ) : ℚ) * 0.5 + ((0 : ℕ) : ℚ) * 0.3 + (N : ℚ) * 0.2 = 0.2 * N
    push_cast
    ring
  · intro k
    have h4 : RankingIndex.update_index^[4] (riOfCounters N 0 0)
        = { _index := 0,
            _index_counter := { first_week := 0, second_week := 0, third_week := 0 } } := by
      show RankingIndex.update_index
          ((riOfCounters N 0 0).update_index.update_index.update_index) = _
      unfold riOfCounters RankingIndex.update_index
        RankingIndex._update_index_counters
      norm_num
    have hsplit : RankingIndex.update_index^[4 + k] (riOfCounters N 0 0)
        = RankingIndex.update_index^[k]
            (RankingIndex.update_index^[4] (riOfCounters N 0 0)) := by
      rw [Nat.add_comm 4 k, Function.iterate_add_apply]
    rw [hsplit, h4, Function.iterate_fixed update_index_zero_fixed]

-- ---------------------------------------------------------------------------
-- Product rows (store/models/product.py) — claim-relevant columns only
-- ---------------------------------------------------------------------------

/-- An AttributeValue row (store/models/attribute.py): a textual value and its
slug, both unique. -/
structure AttributeValue where
  value : String
  slug : String
deriving DecidableEq, Repr

/-- A ProductAttribute row (store/models/attribute.py): links a product to one
attribute with a set of values. The attribute foreign key is modelled by its
database column name attribute_id, since attribute is a Lean keyword. -/
structure ProductAttribute where
  attribute_id : ℕ
  _values : List AttributeValue
deriving DecidableEq, Repr

/-- An Attribute row (store/models/attribute.py): id, unique slug and type
(one of NUM_INT, NUM_RANGE, TEXT, BOOLEAN, LIST, SELECT). -/
structure Attribute where
  id : ℕ
  slug : String
  type : String
deriving DecidableEq, Repr

/-- A Catalog row (store/models), reduced to its id and slug: products refer to
catalogs through the _tags many-to-many relation. -/
structure Catalog where
  id : ℕ
  slug : String
deriving DecidableEq, Repr

/-- A ListingAttribute row (store/models/attribute.py): an attribute configured
as filterable for a listing, owning its own RankingIndex. Listing and
attribute are referenced through their database column names listing_id and
attribute_id. -/
structure ListingAttribute where
  listing_id : ℕ
  attribute_id : ℕ
  popular : RankingIndex
deriving DecidableEq, Repr

/-- A Product row (store/models/product.py), reduced to the columns the claims
touch: id, price, discount_percent, quantity, publish, created_at, the _tags
many-to-many relation, the _product_attributes rows and the popular
RankingIndex. -/
structure Product where
  id : ℕ
  price : ℚ
  discount_percent : ℚ
  quantity : ℕ
  publish : Bool
  created_at : ℤ
  _tags : List Catalog
  _product_attributes : List ProductAttribute
  popular : RankingIndex
deriving DecidableEq, Repr

/-- Quantization of a nonneg-or-not rational to an integer with Python
decimal ROUND_DOWN semantics: rounding toward zero. -/
def ratRoundDown (x : ℚ) : ℤ :=
  if 0 ≤ x then ⌊x⌋ else ⌈x⌉

/-- Product.discount_amount: zero when discount_percent is below 0.5,
otherwise price * discount_percent / 100 quantized with ROUND_DOWN. -/
def Product.discount_amount (p : Product) : ℚ :=
  if p.discount_percent < 0.5 then 0
  else (ratRoundDown (p.price * p.discount_percent / 100) : ℚ)

/-- Product.discounted_price: price minus discount_amount. -/
def Product.discounted_price (p : Product) : ℚ :=
  p.price - p.discount_amount

/-- Product.status, reduced to its code: OUT_OF_STOCK for quantity 0, LIMITED
below 4, IN_STOCK otherwise (store/models/product.py). -/
def Product.status_code (p : Product) : String :=
  if p.quantity = 0 then "OUT_OF_STOCK"
  else if p.quantity < 4 then "LIMITED"
  else "IN_STOCK"

-- ---------------------------------------------------------------------------
-- C3: discounted price floor
-- ---------------------------------------------------------------------------

/-- A product priced 10000 with discount_percent 0.4, on which the unguarded
floor formula of the claim disagrees with the code. -/
def prod10000 : Product :=
  { id := 1, price := 10000, discount_percent := 0.4, quantity := 1,
    publish := true, created_at := 0, _tags := [], _product_attributes := [],
    popular := create_ranking_index }

/-- C3 counterexample: for price 10000 and discount_percent 0.4 the code
returns discounted_price 10000 (the discount_amount guard returns 0 for any
discount_percent below 0.5), while price minus the floor of
price * discount_percent / 100 would be 10000 - 40 = 9960. -/
theorem C3_counterexample :
    prod10000.discounted_price = 10000
    ∧ prod10000.price - (⌊prod10000.price * prod10000.discount_percent / 100⌋ : ℚ)
        = 9960
    ∧ prod10000.discounted_price
        ≠ prod10000.price - (⌊prod10000.price * prod10000.discount_percent / 100⌋ : ℚ) := by
  have harg : prod10000.price * prod10000.discount_percent / 100 = 40 := by
    norm_num [prod10000]
  have hfloor : (⌊prod10000.price * prod10000.discount_percent / 100⌋ : ℤ) = 40 := by
    rw [harg]
    norm_num
  have hlt : prod10000.discount_percent < 0.5 := by norm_num [prod10000]
  have hdp : prod10000.discounted_price = 10000 := by
    unfold Product.discounted_price Product.discount_amount
    rw [if_pos hlt]
    norm_num [prod10000]
  refine ⟨hdp, ?_, ?_⟩
  · rw [hfloor]
    norm_num [prod10000]
  · rw [hdp, hfloor]
    norm_num [prod10000]

/-- C3 amended: for every product with price at least 0 and discount_percent d
between 0 and 100, if d is at least 0.5 then discounted_price equals
price - floor(price * d / 100); if d is below 0.5 the discount amount is 0 and
discounted_price equals price. In particular price 999 with discount 10 gives
discounted price 900. -/
theorem C3_discounted_price_floor (p : Product)
    (hp : 0 ≤ p.price) (hd0 : 0 ≤ p.discount_percent)
    (hd100 : p.discount_percent ≤ 100) :
    (0.5 ≤ p.discount_percent →
      p.discounted_price = p.price - (⌊p.price * p.discount_percent / 100⌋ : ℚ))
    ∧ (p.discount_percent < 0.5 → p.discounted_price = p.price) := by
  have hprod : 0 ≤ p.price * p.discount_percent / 100 := by positivity
  constructor
  · intro hge
    unfold Product.discounted_price Product.discount_amount ratRoundDown
    rw [if_neg (not_lt.mpr hge), if_pos hprod]
  · intro hlt
    unfold Product.discounted_price Product.discount_amount
    rw [if_pos hlt, sub_zero]

/-- The product of the C3 witness: price 999, discount_percent 10. -/
def prod999 : Product :=
  { id := 2, price := 999, discount_percent := 10, quantity := 1,
    publish := true, created_at := 0, _tags := [], _product_attributes := [],
    popular := create_ranking_index }

/-- C3 witness: instantiating the floor law at price 999 and discount 10 gives
discounted price 900. -/
theorem C3_discounted_price_floor_witness :
    prod999.discounted_price = 900 := by
  have h := (C3_discounted_price_floor prod999
      (by norm_num [prod999]) (by norm_num [prod999]) (by norm_num [prod999])).1
      (by norm_num [prod999])
  rw [h]
  have harg : prod999.price * prod999.discount_percent / 100 = 999 / 10 := by
    norm_num [prod999]
  have hfloor : (⌊prod999.price * prod999.discount_percent / 100⌋ : ℤ) = 99 := by
    rw [harg, Int.floor_eq_iff]
    norm_num
  rw [hfloor]
  norm_num [prod999]

-- ---------------------------------------------------------------------------
-- C4: weekly popularity recompute scenario
-- ---------------------------------------------------------------------------

/-- update_products_popularity_indexes (store/services/product.py): calls
popular.update_index on every published product; other rows are untouched.
Modelled as a transformation of the whole product table. -/
def update_products_popularity_indexes (products : List Product) :
    List Product :=
  products.map (fun p =>
    if p.publish then { p with popular := p.popular.update_index } else p)

/-- The product of the C4 scenario: published, with its popular RankingIndex
freshly created and incremented by 3 in the current period. -/
def productP : Product :=
  { id := 3, price := 1000, discount_percent := 20, quantity := 1,
    publish := true, created_at := 0, _tags := [], _product_attributes := [],
    popular := create_ranking_index.index_counter_increment 3 }

/-- The product table of the C4 scenario after n runs of the weekly popularity
recompute job. -/
def C4_run (n : ℕ) : List Product :=
  update_products_popularity_indexes^[n] [productP]

/-- C4 counterexample: after the second parameterless run of the weekly
recompute the popular index of the product is 3 * 0.3 = 0.9 (the formula reads
the counters, not the previous index), not 1.5 * 0.3 = 0.45 as the claim
states. -/
theorem C4_counterexample :
    (C4_run 2).map (fun p => p.popular._index) = [0.9]
    ∧ (0.9 : ℚ) ≠ 0.45 := by
  constructor
  · norm_num [C4_run, Function.iterate_succ_apply, Function.iterate_zero_apply,
      update_products_popularity_indexes, productP,
      create_ranking_index, get_default_counter_dict,
      RankingIndex.index_counter_increment, RankingIndex.update_index,
      RankingIndex._update_index_counters]
  · norm_num

/-- C4 amended: for a product whose popular RankingIndex received increment(3)
in the current period and nothing else, the first weekly recompute sets its
popular index to 3 * 0.5 = 1.5 with counters (0, 3, 0); the second run sets
the index to 3 * 0.3 = 0.9 (not 1.5 * 0.3) with counters (0, 0, 3); after two
more parameterless runs the counters are (0, 0, 0) and the index is 0. -/
theorem C4_weekly_recompute_scenario :
    (C4_run 1).map (fun p => (p.popular._index, p.popular._index_counter))
      = [(1.5, { first_week := 0, second_week := 3, third_week := 0 })]
    ∧ (C4_run 2).map (fun p => (p.popular._index, p.popular._index_counter))
      = [(0.9, { first_week := 0, second_week := 0, third_week := 3 })]
    ∧ (C4_run 3).map (fun p => p.popular._index_counter)
      = [{ first_week := 0, second_week := 0, third_week := 0 }]
    ∧ (C4_run 4).map (fun p => (p.popular._index, p.popular._index_counter))
      = [(0, { first_week := 0, second_week := 0, third_week := 0 })] := by
  refine ⟨?_, ?_, ?_, ?_⟩ <;>
    norm_num [C4_run, Function.iterate_succ_apply, Function.iterate_zero_apply,
      update_products_popularity_indexes, productP,
      create_ranking_index, get_default_counter_dict,
      RankingIndex.index_counter_increment, RankingIndex.update_index,
      RankingIndex._update_index_counters, Prod.ext_iff]

-- ---------------------------------------------------------------------------
-- Sorting (store/managers/product.py, store/services/product.py sort_products)
-- ---------------------------------------------------------------------------

/-- The status_order annotation of ProductManager.get_queryset: 1 when
quantity is positive, 2 when quantity is 0, 3 as fallback (unreachable for a
non-null quantity, kept for fidelity to the Case expression). -/
def status_order (p : Product) : ℕ :=
  if 0 < p.quantity then 1 else if p.quantity = 0 then 2 else 3

/-- The discount_price annotation used by sort_products:
price * (100 - discount_percent) / 100. Distinct from the floor-based
Product.discounted_price property. -/
def Product.discount_price (p : Product) : ℚ :=
  p.price * (100 - p.discount_percent) / 100

/-- Lexicographic comparison with an ascending primary key: a before b when
the key of a is smaller, falling through to the inner comparison on equal
keys. Models an order_by("key", ...rest) ORM clause. -/
def lexAsc {α : Type} [LinearOrder α] (f : Product → α)
    (inner : Product → Product → Prop) (a b : Product) : Prop :=
  f a < f b ∨ (f a = f b ∧ inner a b)

/-- Lexicographic comparison with a descending primary key: a before b when
the key of a is larger, falling through to the inner comparison on equal keys.
Models an order_by("-key", ...rest) ORM clause. -/
def lexDesc {α : Type} [LinearOrder α] (f : Product → α)
    (inner : Product → Product → Prop) (a b : Product) : Prop :=
  f b < f a ∨ (f a = f b ∧ inner a b)

instance {α : Type} [LinearOrder α] (f : Product → α)
    (inner : Product → Product → Prop) [DecidableRel inner] :
    DecidableRel (lexAsc f inner) := fun a b => by
  unfold lexAsc; infer_instance

instance {α : Type} [LinearOrder α] (f : Product → α)
    (inner : Product → Product → Prop) [DecidableRel inner] :
    DecidableRel (lexDesc f inner) := fun a b => by
  unfold lexDesc; infer_instance

theorem lexAsc_total {α : Type} [LinearOrder α] (f : Product → α)
    (inner : Product → Product → Prop)
    (hinner : ∀ a b, inner a b ∨ inner b a) :
    ∀ a b, lexAsc f inner a b ∨ lexAsc f inner b a := by
  intro a b
  rcases lt_trichotomy (f a) (f b) with h | h | h
  · exact Or.inl (Or.inl h)
  · rcases hinner a b with hi | hi
    · exact Or.inl (Or.inr ⟨h, hi⟩)
    · exact Or.inr (Or.inr ⟨h.symm, hi⟩)
  · exact Or.inr (Or.inl h)

theorem lexDesc_total {α : Type} [LinearOrder α] (f : Product → α)
    (inner : Product → Product → Prop)
    (hinner : ∀ a b, inner a b ∨ inner b a) :
    ∀ a b, lexDesc f inner a b ∨ lexDesc f inner b a := by
  intro a b
  rcases lt_trichotomy (f a) (f b) with h | h | h
  · exact Or.inr (Or.inl h)
  · rcases hinner a b with hi | hi
    · exact Or.inl (Or.inr ⟨h, hi⟩)
    · exact Or.inr (Or.inr ⟨h.symm, hi⟩)
  · exact Or.inl (Or.inl h)

theorem lexAsc_trans {α : Type} [LinearOrder α] (f : Product → α)
    (inner : Product → Product → Prop)
    (hinner : ∀ a b c, inner a b → inner b c → inner a c) :
    ∀ a b c, lexAsc f inner a b → lexAsc f inner b c → lexAsc f inner a c := by
  intro a b c hab hbc
  rcases hab with h1 | ⟨h1, hi1⟩ <;> rcases hbc with h2 | ⟨h2, hi2⟩
  · exact Or.inl (h1.trans h2)
  · exact Or.inl (h2 ▸ h1)
  · exact Or.inl (h1 ▸ h2)
  · exact Or.inr ⟨h1.trans h2, hinner a b c hi1 hi2⟩

theorem lexDesc_trans {α : Type} [LinearOrder α] (f : Product → α)
    (inner : Product → Product → Prop)
    (hinner : ∀ a b c, inner a b → inner b c → inner a c) :
    ∀ a b c, lexDesc f inner a b → lexDesc f inner b c → lexDesc f inner a c := by
  intro a b c hab hbc
  rcases hab with h1 | ⟨h1, hi1⟩ <;> rcases hbc with h2 | ⟨h2, hi2⟩
  · exact Or.inl (h2.trans h1)
  · exact Or.inl (h2 ▸ h1)
  · exact Or.inl (h1.symm ▸ h2)
  · exact Or.inr ⟨h1.trans h2, hinner a b c hi1 hi2⟩

/-- Ordering of order_by("status_order", "discount_price"): used for the
cheap sort mode. -/
def cheapLE : Product → Product → Prop :=
  lexAsc status_order (fun a b => a.discount_price ≤ b.discount_price)

/-- Ordering of order_by("status_order", "-discount_price"): used for the
expensive sort mode. -/
def expensiveLE : Product → Product → Prop :=
  lexAsc status_order (lexDesc Product.discount_price (fun _ _ => True))

/-- Ordering of order_by("status_order", "-discount_percent",
"-popular___index", "-created_at"): used for the discount sort mode. -/
def discountLE : Product → Product → Prop :=
  lexAsc status_order (lexDesc Product.discount_percent
    (lexDesc (fun p => p.popular._index)
      (fun a b => b.created_at ≤ a.created_at)))

/-- Ordering of the default queryset, order_by("status_order",
"-popular___index", "-created_at") in ProductManager.get_queryset. -/
def defaultLE : Product → Product → Prop :=
  lexAsc status_order (lexDesc (fun p => p.popular._index)
    (fun a b => b.created_at ≤ a.created_at))

instance : DecidableRel cheapLE := fun a b => by
  unfold cheapLE; infer_instance

instance : DecidableRel expensiveLE := fun a b => by
  unfold expensiveLE; infer_instance

instance : DecidableRel discountLE := fun a b => by
  unfold discountLE; infer_instance

instance : DecidableRel defaultLE := fun a b => by
  unfold defaultLE; infer_instance

instance : IsTotal Product cheapLE :=
  ⟨lexAsc_total _ _ (fun a b => le_total _ _)⟩

instance : IsTrans Product cheapLE :=
  ⟨lexAsc_trans _ _ (fun _ _ _ h1 h2 => h1.trans h2)⟩

instance : IsTotal Product expensiveLE :=
  ⟨lexAsc_total _ _ (lexDesc_total _ _ (fun _ _ => Or.inl trivial))⟩

instance : IsTrans Product expensiveLE :=
  ⟨lexAsc_trans _ _ (lexDesc_trans _ _ (fun _ _ _ _ _ => trivial))⟩

instance : IsTotal Product discountLE :=
  ⟨lexAsc_total _ _ (lexDesc_total _ _ (lexDesc_total _ _
    (fun a b => le_total _ _)))⟩

instance : IsTrans Product discountLE :=
  ⟨lexAsc_trans _ _ (lexDesc_trans _ _ (lexDesc_trans _ _
    (fun _ _ _ h1 h2 => h2.trans h1)))⟩

instance : IsTotal Product defaultLE :=
  ⟨lexAsc_total _ _ (lexDesc_total _ _ (fun a b => le_total _ _))⟩

instance : IsTrans Product defaultLE :=
  ⟨lexAsc_trans _ _ (lexDesc_trans _ _ (fun _ _ _ h1 h2 => h2.trans h1))⟩

/-- sort_products (store/services/product.py): for cheap and expensive the
queryset is annotated with discount_price and ordered by status_order and
then by discount_price ascending or descending; for discount it is ordered by
status_order, then discount_percent, popular index and creation time, all
descending; any other sort value leaves the queryset unchanged. The ORM
order_by is modelled as a sort by the corresponding ordering relation. -/
def sort_products (sort : Option String) (products : List Product) :
    List Product :=
  match sort with
  | some s =>
      if s = "cheap" then List.insertionSort cheapLE products
      else if s = "expensive" then List.insertionSort expensiveLE products
      else if s = "discount" then List.insertionSort discountLE products
      else products
  | none => products

/-- The ordering applied by ProductManager.get_queryset (the default product
queryset ordering); its annotations other than status_order are not needed by
the claims. -/
def ProductManager_get_queryset (products : List Product) : List Product :=
  List.insertionSort defaultLE products

-- ---------------------------------------------------------------------------
-- C5: sort ordering and stock-status tiering
-- ---------------------------------------------------------------------------

/-- A product with quantity 2 (LIMITED stock status) and low price, for the C5
counterexample. -/
def pA5 : Product :=
  { id := 10, price := 10, discount_percent := 0, quantity := 2,
    publish := true, created_at := 0, _tags := [], _product_attributes := [],
    popular := create_ranking_index }

/-- A product with quantity 10 (IN_STOCK stock status) and higher price, for
the C5 counterexample. -/
def pB5 : Product :=
  { id := 11, price := 20, discount_percent := 0, quantity := 10,
    publish := true, created_at := 0, _tags := [], _product_attributes := [],
    popular := create_ranking_index }

/-- C5 counterexample: under the cheap sort the LIMITED product pA5 (quantity
2, discounted price 10) is ordered before the IN_STOCK product pB5 (quantity
10, discounted price 20), because the status_order annotation places every
positive quantity in the same tier; the claimed three-tier ordering (in-stock
before limited) would put pB5 first. -/
theorem C5_counterexample :
    sort_products (some "cheap") [pB5, pA5] = [pA5, pB5]
    ∧ pA5.status_code = "LIMITED"
    ∧ pB5.status_code = "IN_STOCK"
    ∧ 1 ≤ pA5.quantity ∧ 1 ≤ pB5.quantity := by
  have hno : ¬ cheapLE pB5 pA5 := by
    norm_num [cheapLE, lexAsc, status_order, Product.discount_price, pA5, pB5]
  refine ⟨?_, rfl, rfl, by norm_num [pA5], by norm_num [pB5]⟩
  simp [sort_products, List.insertionSort, List.orderedInsert, hno]

theorem lexAsc_key_le {α : Type} [LinearOrder α] (f : Product → α)
    (inner : Product → Product → Prop) {a b : Product}
    (h : lexAsc f inner a b) : f a ≤ f b := by
  rcases h with h | ⟨h, _⟩
  · exact le_of_lt h
  · exact le_of_eq h

/-- C5 amended: sort_products with cheap or expensive orders by discounted
price ascending or descending only after a primary sort by a two-tier stock
status (products with positive quantity first, then quantity 0; LIMITED and
IN_STOCK products share the first tier), and this stock-status tiering takes
priority in every sort mode the service implements (cheap, expensive,
discount) as well as in the default manager ordering; discount orders by
discount percent descending, then decayed popularity descending, then
creation time descending, and the default manager ordering is status_order,
then popularity descending, then creation time descending. -/
theorem C5_sort_products_ordering (ps : List Product) :
    (sort_products (some "cheap") ps).Perm ps
    ∧ List.Sorted cheapLE (sort_products (some "cheap") ps)
    ∧ List.Pairwise (fun a b => status_order a ≤ status_order b)
        (sort_products (some "cheap") ps)
    ∧ (sort_products (some "expensive") ps).Perm ps
    ∧ List.Sorted expensiveLE (sort_products (some "expensive") ps)
    ∧ List.Pairwise (fun a b => status_order a ≤ status_order b)
        (sort_products (some "expensive") ps)
    ∧ (sort_products (some "discount") ps).Perm ps
    ∧ List.Sorted discountLE (sort_products (some "discount") ps)
    ∧ List.Pairwise (fun a b => status_order a ≤ status_order b)
        (sort_products (some "discount") ps)
    ∧ (ProductManager_get_queryset ps).Perm ps
    ∧ List.Sorted defaultLE (ProductManager_get_queryset ps)
    ∧ List.Pairwise (fun a b => status_order a ≤ status_order b)
        (ProductManager_get_queryset ps)
    ∧ sort_products none (ProductManager_get_queryset ps)
        = ProductManager_get_queryset ps := by
  have hc : sort_products (some "cheap") ps = List.insertionSort cheapLE ps := by
    simp [sort_products]
  have he : sort_products (some "expensive") ps
      = List.insertionSort expensiveLE ps := by
    simp [sort_products]
  have hd : sort_products (some "discount") ps
      = List.insertionSort discountLE ps := by
    simp [sort_products]
  rw [hc, he, hd]
  refine ⟨List.perm_insertionSort _ _, List.sorted_insertionSort _ _,
    ?_, List.perm_insertionSort _ _, List.sorted_insertionSort _ _,
    ?_, List.perm_insertionSort _ _, List.sorted_insertionSort _ _,
    ?_, List.perm_insertionSort _ _, List.sorted_insertionSort _ _,
    ?_, rfl⟩
  · exact (List.sorted_insertionSort cheapLE ps).imp
      (fun h => lexAsc_key_le _ _ h)
  · exact (List.sorted_insertionSort expensiveLE ps).imp
      (fun h => lexAsc_key_le _ _ h)
  · exact (List.sorted_insertionSort discountLE ps).imp
      (fun h => lexAsc_key_le _ _ h)
  · exact (List.sorted_insertionSort defaultLE ps).imp
      (fun h => lexAsc_key_le _ _ h)

-- ---------------------------------------------------------------------------
-- Tag curation (store/services/sections.py)
-- ---------------------------------------------------------------------------

/-- Many-to-many remove: product._tags.remove(tag) deletes the relation. -/
def Product.tags_remove (p : Product) (t : Catalog) : Product :=
  { p with _tags := p._tags.filter (fun x => ¬ x = t) }

/-- Many-to-many add: product._tags.add(tag) is a no-op when the relation
already exists. -/
def Product.tags_add (p : Product) (t : Catalog) : Product :=
  if t ∈ p._tags then p else { p with _tags := p._tags ++ [t] }

/-- The first loop of set_promo_tag: the promo tag is removed from published
products only (Product.objects.filter(publish=True)). -/
def promo_clear_step (promo_tag : Catalog) (p : Product) : Product :=
  if p.publish then p.tags_remove promo_tag else p

/-- The second loop of set_promo_tag: the promo tag is added to every product
with nonzero discount (Product.objects.exclude(discount_percent=0)),
regardless of stock or publish state. -/
def promo_add_step (promo_tag : Catalog) (p : Product) : Product :=
  if ¬ p.discount_percent = 0 then p.tags_add promo_tag else p

/-- set_promo_tag (store/services/sections.py): remove the promo tag from
published products, then add it to every product with nonzero
discount_percent. Modelled as a transformation of the whole product table. -/
def set_promo_tag (promo_tag : Catalog) (products : List Product) :
    List Product :=
  (products.map (promo_clear_step promo_tag)).map (promo_add_step promo_tag)

/-- The promo tag Catalog row (Selection with slug akcionnye-tovary). -/
def promoTag : Catalog :=
  { id := 100, slug := "akcionnye-tovary" }

/-- An unpublished product with zero discount that already carries the promo
tag, for the C7 counterexample. -/
def C7unpub : Product :=
  { id := 20, price := 5, discount_percent := 0, quantity := 1,
    publish := false, created_at := 0, _tags := [promoTag],
    _product_attributes := [], popular := create_ranking_index }

/-- C7 counterexample: set_promo_tag leaves an unpublished zero-discount
product that already carries the promo tag untouched (the removal loop only
visits published products), so after the run this product still carries the
promo tag although its discount_percent is 0. -/
theorem C7_counterexample :
    set_promo_tag promoTag [C7unpub] = [C7unpub]
    ∧ promoTag ∈ C7unpub._tags
    ∧ C7unpub.discount_percent = 0
    ∧ C7unpub.publish = false := by
  refine ⟨?_, by decide, by decide, rfl⟩
  decide

theorem mem_tags_add (p : Product) (t : Catalog) : t ∈ (p.tags_add t)._tags := by
  unfold Product.tags_add
  split
  · assumption
  · simp

theorem not_mem_tags_remove (p : Product) (t : Catalog) :
    t ∉ (p.tags_remove t)._tags := by
  unfold Product.tags_remove
  simp

theorem tags_remove_publish (p : Product) (t : Catalog) :
    (p.tags_remove t).publish = p.publish := rfl

theorem tags_remove_id (p : Product) (t : Catalog) :
    (p.tags_remove t).id = p.id := rfl

theorem tags_remove_quantity (p : Product) (t : Catalog) :
    (p.tags_remove t).quantity = p.quantity := rfl

theorem tags_remove_discount (p : Product) (t : Catalog) :
    (p.tags_remove t).discount_percent = p.discount_percent := rfl

theorem tags_add_publish (p : Product) (t : Catalog) :
    (p.tags_add t).publish = p.publish := by
  unfold Product.tags_add
  split <;> rfl

theorem tags_add_id (p : Product) (t : Catalog) :
    (p.tags_add t).id = p.id := by
  unfold Product.tags_add
  split <;> rfl

theorem tags_add_quantity (p : Product) (t : Catalog) :
    (p.tags_add t).quantity = p.quantity := by
  unfold Product.tags_add
  split <;> rfl

theorem tags_add_discount (p : Product) (t : Catalog) :
    (p.tags_add t).discount_percent = p.discount_percent := by
  unfold Product.tags_add
  split <;> rfl

/-- C7 amended: after set_promo_tag runs, the promo tag has been removed from
all published products that previously carried it, and it has been added to
every product with nonzero discount_percent regardless of stock; a product
carries the promo tag afterwards exactly when it has nonzero discount_percent
or when it is unpublished and previously carried the tag (unpublished
zero-discount products keep a stale promo tag). -/
theorem C7_set_promo_tag (promo_tag : Catalog) (products : List Product) :
    set_promo_tag promo_tag products
      = products.map
          (fun p => promo_add_step promo_tag (promo_clear_step promo_tag p))
    ∧ ∀ p : Product,
        promo_tag
            ∈ (promo_add_step promo_tag (promo_clear_step promo_tag p))._tags
          ↔ (¬ p.discount_percent = 0
             ∨ (¬ p.publish = true ∧ promo_tag ∈ p._tags)) := by
  constructor
  · unfold set_promo_tag
    rw [List.map_map]
    rfl
  · intro p
    by_cases hd : p.discount_percent = 0
    · by_cases hp : p.publish = true
      · simp [promo_add_step, promo_clear_step, hd, hp,
          tags_remove_discount, not_mem_tags_remove]
      · simp [promo_add_step, promo_clear_step, hd, hp]
    · by_cases hp : p.publish = true
      · simp [promo_add_step, promo_clear_step, hd, hp,
          tags_remove_discount, mem_tags_add]
      · simp [promo_add_step, promo_clear_step, hd, hp, mem_tags_add]

-- ---------------------------------------------------------------------------
-- C9: best-price job idempotence
-- ---------------------------------------------------------------------------

/-- Allow-list of listing category slugs used by the section curation jobs
(store/services/sections.py, DISPLAY_CATEGORIES_SECTIONS). -/
def DISPLAY_CATEGORIES_SECTIONS : List String :=
  ["televizory", "noutbuki", "stiralnye-mashiny", "smartfony", "holodilniki",
   "morozilnye-lari", "morozilnye-kamery", "planshety", "gazovye-plity",
   "ehlektricheskie-plity", "kombinirovannye-plity",
   "vstraivaemye-duhovye-shkafy", "vstraivaemye-paneli", "vytyazhki",
   "posudomoechnye-mashiny", "mikrovolnovye-pechi", "multivarki",
   "ehlektropechi", "kuhonnye-kombajny", "myasorubki", "ehlektrochajniki",
   "akusticheskie-sistemy", "printery-i-mfu", "pylesosy", "kofemashiny",
   "kofevarki", "utyugi", "blendery", "feny", "ehlektrobritvy", "skovorodki",
   "nabory-posudy", "kastryuli"]

/-- Ordering of order_by("-discount_percent") in the best-price selection. -/
def discountDescLE (a b : Product) : Prop :=
  b.discount_percent ≤ a.discount_percent

instance : DecidableRel discountDescLE := fun a b => by
  unfold discountDescLE; infer_instance

instance : IsTotal Product discountDescLE :=
  ⟨fun a b => le_total b.discount_percent a.discount_percent⟩

instance : IsTrans Product discountDescLE :=
  ⟨fun _ _ _ h1 h2 => h2.trans h1⟩

/-- The first loop of update_best_prices_products: the best-price tag is
removed from published products only. -/
def bp_clear_step (t : Catalog) (p : Product) : Product :=
  if p.publish then p.tags_remove t else p

/-- The selection predicate of update_best_prices_products: published,
quantity at least 1, tagged with a display category, positive discount. -/
def bp_candidate (p : Product) : Bool :=
  p.publish && (1 ≤ p.quantity)
    && p._tags.any (fun t => t.slug ∈ DISPLAY_CATEGORIES_SECTIONS)
    && (0 < p.discount_percent)

/-- The second loop of update_best_prices_products: the tag is added to the
rows of the selection, identified by id. -/
def bp_add_step (t : Catalog) (ids : List ℕ) (p : Product) : Product :=
  if p.id ∈ ids then p.tags_add t else p

/-- The ids of the best-price selection, queried against the table state left
by the clear loop: the up-to-100 published in-stock display-category products
with positive discount, ordered by discount percent descending. -/
def bp_selected_ids (t : Catalog) (products : List Product) : List ℕ :=
  ((List.insertionSort discountDescLE
      ((products.map (bp_clear_step t)).filter bp_candidate)).take 100).map
    (fun p => p.id)

/-- update_best_prices_products (store/services/sections.py): remove the
best-price tag from every published product, then add it to each row of the
best-price selection (which queries the post-clear table state). -/
def update_best_prices_products (t : Catalog) (products : List Product) :
    List Product :=
  (products.map (bp_clear_step t)).map
    (bp_add_step t (bp_selected_ids t products))

theorem tags_remove_tags_remove (p : Product) (t : Catalog) :
    (p.tags_remove t).tags_remove t = p.tags_remove t := by
  unfold Product.tags_remove
  simp [List.filter_filter]

theorem tags_remove_tags_add (p : Product) (t : Catalog) :
    (p.tags_add t).tags_remove t = p.tags_remove t := by
  unfold Product.tags_add
  split
  · rfl
  · unfold Product.tags_remove
    simp [List.filter_append]

theorem tags_add_tags_add (p : Product) (t : Catalog) :
    (p.tags_add t).tags_add t = p.tags_add t := by
  have h : t ∈ (p.tags_add t)._tags := mem_tags_add p t
  unfold Product.tags_add
  rw [if_pos]
  exact h

theorem bp_clear_add_clear (t : Catalog) (ids : List ℕ) (p : Product) :
    bp_clear_step t (bp_add_step t ids (bp_clear_step t p))
      = if p.publish then bp_clear_step t p else bp_add_step t ids p := by
  by_cases hp : p.publish = true
  · by_cases hid : p.id ∈ ids
    · simp [bp_clear_step, bp_add_step, hp, tags_remove_id, hid,
        tags_add_publish, tags_remove_publish, tags_remove_tags_add,
        tags_remove_tags_remove]
    · simp [bp_clear_step, bp_add_step, hp, tags_remove_id, hid,
        tags_remove_publish, tags_remove_tags_remove]
  · by_cases hid : p.id ∈ ids
    · simp [bp_clear_step, bp_add_step, hp, hid, tags_add_publish]
    · simp [bp_clear_step, bp_add_step, hp, hid]

theorem bp_candidate_unpublished (p : Product) (hp : p.publish = false) :
    bp_candidate p = false := by
  simp [bp_candidate, hp]

theorem filter_map_congr_pointwise {f g : Product → Product}
    {pred : Product → Bool} (l : List Product)
    (h : ∀ p ∈ l, (pred (f p) = false ∧ pred (g p) = false) ∨ f p = g p) :
    (l.map f).filter pred = (l.map g).filter pred := by
  induction l with
  | nil => rfl
  | cons a l ih =>
      have ha := h a (List.mem_cons_self a l)
      have hrest : ∀ p ∈ l, (pred (f p) = false ∧ pred (g p) = false)
          ∨ f p = g p := fun p hp => h p (List.mem_cons_of_mem a hp)
      rcases ha with ⟨h1, h2⟩ | heq
      · simp [List.filter_cons, h1, h2, ih hrest]
      · simp [List.filter_cons, heq, ih hrest]

theorem bp_clear_run_filter (t : Catalog) (ps : List Product) :
    ((update_best_prices_products t ps).map (bp_clear_step t)).filter
        bp_candidate
      = (ps.map (bp_clear_step t)).filter bp_candidate := by
  unfold update_best_prices_products
  rw [List.map_map, List.map_map]
  apply filter_map_congr_pointwise
  intro p _
  by_cases hp : p.publish = true
  · right
    show bp_clear_step t (bp_add_step t _ (bp_clear_step t p)) = _
    rw [bp_clear_add_clear, if_pos hp]
  · left
    have hp0 : p.publish = false := Bool.eq_false_iff.mpr hp
    constructor
    · show bp_candidate
          (bp_clear_step t (bp_add_step t _ (bp_clear_step t p))) = false
      rw [bp_clear_add_clear, if_neg hp]
      unfold bp_add_step
      split
      · apply bp_candidate_unpublished
        rw [tags_add_publish, hp0]
      · exact bp_candidate_unpublished p hp0
    · show bp_candidate (bp_clear_step t p) = false
      unfold bp_clear_step
      rw [if_neg hp]
      exact bp_candidate_unpublished p hp0

theorem bp_selected_ids_run (t : Catalog) (ps : List Product) :
    bp_selected_ids t (update_best_prices_products t ps)
      = bp_selected_ids t ps := by
  unfold bp_selected_ids
  rw [bp_clear_run_filter]

/-- C9: running update_best_prices_products twice in a row with no data
changes between the runs yields the same product table, and in particular the
same set of products tagged with the best-price tag after each run. -/
theorem C9_best_price_idempotent (t : Catalog) (ps : List Product) :
    update_best_prices_products t (update_best_prices_products t ps)
      = update_best_prices_products t ps
    ∧ (update_best_prices_products t (update_best_prices_products t ps)).filter
        (fun p => t ∈ p._tags)
      = (update_best_prices_products t ps).filter (fun p => t ∈ p._tags) := by
  have hmain : update_best_prices_products t (update_best_prices_products t ps)
      = update_best_prices_products t ps := by
    rw [show update_best_prices_products t (update_best_prices_products t ps)
        = ((update_best_prices_products t ps).map (bp_clear_step t)).map
            (bp_add_step t
              (bp_selected_ids t (update_best_prices_products t ps)))
      from rfl]
    rw [bp_selected_ids_run]
    unfold update_best_prices_products
    rw [List.map_map, List.map_map, List.map_map, List.map_map]
    apply List.map_congr_left
    intro p _
    show bp_add_step t _ (bp_clear_step t (bp_add_step t _ (bp_clear_step t p)))
        = bp_add_step t _ (bp_clear_step t p)
    rw [bp_clear_add_clear]
    by_cases hp : p.publish = true
    · rw [if_pos hp]
    · rw [if_neg hp]
      have hclear : bp_clear_step t p = p := by
        unfold bp_clear_step
        rw [if_neg hp]
      rw [hclear]
      by_cases hid : p.id ∈ bp_selected_ids t ps
      · simp [bp_add_step, hid, tags_add_id, tags_add_tags_add]
      · simp [bp_add_step, hid]
  exact ⟨hmain, by rw [hmain]⟩

-- ---------------------------------------------------------------------------
-- C10: availability defaulting (store/views/catalog.py)
-- ---------------------------------------------------------------------------

/-- The requested availability buckets: request.GET.getlist("availability")
falls back to the default list when the query parameter list is empty
(Python list-or idiom). -/
def requested_availability (raw : List String) : List String :=
  if raw = [] then ["in_stock", "preorder"] else raw

/-- Set equality of two string lists, modelling the Python set(...) != set
comparison guarding the availability filter. -/
def same_string_set (l1 l2 : List String) : Bool :=
  l1.all (fun s => s ∈ l2) && l2.all (fun s => s ∈ l1)

/-- The availability Q object built in CatalogViewSet: a disjunction of the
requested buckets, where in_stock means shop stock and quantity at least 1,
preorder means no shop stock and quantity at least 1, and unavailable means
quantity 0. The has_shop_stock annotation is a per-product boolean supplied
by the shop-stock subquery. -/
def availability_q (availability_filters : List String)
    (has_shop_stock : Product → Bool) (p : Product) : Bool :=
  ("in_stock" ∈ availability_filters && has_shop_stock p && (1 ≤ p.quantity))
  || ("preorder" ∈ availability_filters && !has_shop_stock p
        && (1 ≤ p.quantity))
  || ("unavailable" ∈ availability_filters && (p.quantity = 0))

/-- The availability filtering block of CatalogViewSet (retrieve and products
endpoints, with a city context): defaulting of the requested buckets, the
full-set check, and the queryset filter by the availability Q object. -/
def filter_products_by_availability (raw : List String)
    (has_shop_stock : Product → Bool) (products : List Product) :
    List Product :=
  if same_string_set (requested_availability raw)
      ["in_stock", "preorder", "unavailable"] then products
  else products.filter (availability_q (requested_availability raw)
    has_shop_stock)

/-- C10: for a catalog products request with a city context but no explicit
availability selection, the requested availability set defaults to the pair
in_stock and preorder, the result is exactly the products with quantity at
least 1, and no product with quantity 0 appears in the result. -/
theorem C10_default_availability (has_shop_stock : Product → Bool)
    (products : List Product) :
    requested_availability [] = ["in_stock", "preorder"]
    ∧ filter_products_by_availability [] has_shop_stock products
        = products.filter (fun p => 1 ≤ p.quantity)
    ∧ ∀ p ∈ filter_products_by_availability [] has_shop_stock products,
        p.quantity ≠ 0 := by
  have hfull : same_string_set (requested_availability [])
      ["in_stock", "preorder", "unavailable"] = false := by decide
  have hfil : filter_products_by_availability [] has_shop_stock products
      = products.filter (fun p => 1 ≤ p.quantity) := by
    unfold filter_products_by_availability
    rw [hfull]
    show products.filter _ = products.filter _
    apply List.filter_congr
    intro p _
    show availability_q (requested_availability []) has_shop_stock p
        = decide (1 ≤ p.quantity)
    unfold availability_q requested_availability
    cases hss : has_shop_stock p <;> by_cases hq : 1 ≤ p.quantity <;>
      simp [hq]
  refine ⟨rfl, hfil, ?_⟩
  intro p hp
  rw [hfil] at hp
  have := List.of_mem_filter hp
  have hq : 1 ≤ p.quantity := by simpa using this
  omega

-- ---------------------------------------------------------------------------
-- get_products_by_filter (store/services/product.py)
-- ---------------------------------------------------------------------------

/-- One value of the attributes filter spec: a value slug, or a numeric range
dict with min and max bounds. -/
inductive FilterValue where
  | str (slug : String)
  | range (min max : ℚ)
deriving DecidableEq, Repr

/-- Numeric value of a list of decimal digit characters. -/
def digitsVal (cs : List Char) : ℕ :=
  cs.foldl (fun n c => n * 10 + (c.toNat - 48)) 0

/-- The regular expression guard of the numeric_value annotation: one or more
digits, optionally followed by a dot and one or more digits. -/
def matches_num_regex (cs : List Char) : Bool :=
  let intPart := cs.takeWhile Char.isDigit
  let rest := cs.dropWhile Char.isDigit
  !intPart.isEmpty &&
    (rest.isEmpty ||
      (match rest with
       | '.' :: frac => !frac.isEmpty && frac.all Char.isDigit
       | _ => false))

/-- The numeric_value annotation of get_products_by_filter: a value text
matching the numeric regular expression is cast to a float. The Replace chain
applied before the cast (comma to dot, drop spaces, drop one literal bracket
pattern) is the identity on strings accepted by the regular expression, which
contain only digits and at most one dot, so the parse is direct. -/
def parse_numeric_value (s : String) : Option ℚ :=
  let cs := s.toList
  if matches_num_regex cs then
    let intPart := cs.takeWhile Char.isDigit
    let rest := cs.dropWhile Char.isDigit
    let frac :=
      match rest with
      | _ :: f => f
      | [] => []
    some ((digitsVal intPart : ℚ) + (digitsVal frac : ℚ) / (10 : ℚ) ^ frac.length)
  else none

/-- The per-value Q object of the attributes loop. For a range dict on a
NUM_RANGE attribute, the product must be linked to the attribute and some
value of that attribute must parse numerically into the requested bounds.
For a slug value, the two conditions of the Q object join the _attributes and
_product_attributes relations independently: the product must be linked to
the attribute, and some product attribute (not necessarily the same one) must
carry the requested value slug. A range dict on a non-NUM_RANGE attribute
lands in the slug branch with a dict as slug and matches nothing. -/
def matches_filter_value (a : Attribute) (p : Product) :
    FilterValue → Bool
  | FilterValue.range mn mx =>
      if a.type = "NUM_RANGE" then
        p._product_attributes.any (fun pa => pa.attribute_id = a.id)
        && p._product_attributes.any (fun pa =>
            pa.attribute_id = a.id
            && pa._values.any (fun av =>
                match parse_numeric_value av.value with
                | some q => mn ≤ q && q ≤ mx
                | none => false))
      else false
  | FilterValue.str slug =>
      p._product_attributes.any (fun pa => pa.attribute_id = a.id)
      && p._product_attributes.any (fun pa =>
          pa._values.any (fun av => av.slug = slug))

/-- The qs_values Q object: the OR of the per-value Q objects of one
attribute entry. -/
def matches_qs_values (a : Attribute) (values : List FilterValue)
    (p : Product) : Bool :=
  values.any (matches_filter_value a p)

/-- The all_attributes_dict lookup of get_products_by_filter: the dict is
built over Attribute.objects.filter(slug__in=keys) keyed by slug; a missing
key raises KeyError. -/
def attributes_dict_lookup (attrTable : List Attribute) (keys : List String)
    (slug : String) : Option Attribute :=
  (attrTable.filter (fun a => a.slug ∈ keys)).find? (fun a => a.slug = slug)

/-- The la_by_attr_id lookup of get_products_by_filter: the dict is built over
ListingAttribute.objects.filter(listing=listing, attribute__in=attributes_obj)
keyed by attribute id; a missing key raises KeyError. -/
def la_dict_lookup (laTable : List ListingAttribute) (listing : Catalog)
    (attr_ids : List ℕ) (a_id : ℕ) : Option ListingAttribute :=
  (laTable.filter (fun la => la.listing_id = listing.id
      && la.attribute_id ∈ attr_ids)).find? (fun la => la.attribute_id = a_id)

/-- The attributes loop of get_products_by_filter: each filter entry is
resolved through all_attributes_dict and la_by_attr_id (a missing key is a
KeyError, modelled as none), the ids of the products matching the OR of the
entry values are collected, and the running product set is narrowed to those
ids. The popularity increment on the resolved ListingAttribute touches no
product row and does not influence the returned set. -/
def filter_attributes_loop (attrTable : List Attribute)
    (laTable : List ListingAttribute) (listing : Catalog)
    (keys : List String) :
    List (String × List FilterValue) → List Product → Option (List Product)
  | [], products => some products
  | (attribute_slug, values) :: rest, products =>
      match attributes_dict_lookup attrTable keys attribute_slug with
      | none => none
      | some a =>
          match la_dict_lookup laTable listing
              ((attrTable.filter (fun x => x.slug ∈ keys)).map
                (fun x => x.id)) a.id with
          | none => none
          | some _ =>
              filter_attributes_loop attrTable laTable listing keys rest
                (products.filter (fun p =>
                  p.id ∈ (products.filter
                    (matches_qs_values a values)).map (fun q => q.id)))

/-- get_products_by_filter (store/services/product.py): restrict to products
tagged with the listing, then filter by tag slugs (OR), then by ranges over
the annotated discounted price (OR), then run the attributes loop (AND across
entries, OR within one entry). Optional arguments follow Python truthiness:
None and the empty collection both skip their filter; an empty or absent
attributes spec takes the early-return branch. The _discounted_price
annotation is the same expression as the discount_price annotation of
sort_products, so Product.discount_price is reused. -/
def get_products_by_filter (attrTable : List Attribute)
    (laTable : List ListingAttribute) (products : List Product)
    (listing : Catalog) (tags_slugs : Option (List String))
    (prices : Option (List (ℚ × ℚ)))
    (attributes : Option (List (String × List FilterValue))) :
    Option (List Product) :=
  let products1 := products.filter (fun p => listing ∈ p._tags)
  let products2 :=
    match tags_slugs with
    | some (t :: ts) => products1.filter (fun p =>
        (t :: ts).any (fun slug => p._tags.any (fun x => x.slug = slug)))
    | _ => products1
  let products3 :=
    match prices with
    | some (r :: rs) => products2.filter (fun p =>
        (r :: rs).any (fun range_value =>
          range_value.1 ≤ p.discount_price
            && p.discount_price ≤ range_value.2))
    | _ => products2
  match attributes with
  | some (sv :: rest) =>
      (match filter_attributes_loop attrTable laTable listing
          ((sv :: rest).map (fun x => x.1)) (sv :: rest) products3 with
      | none => none
      | some res => some res.dedup)
  | _ =>
      some ((products3.filter (fun p =>
        p.id ∈ products3.map (fun q => q.id))).dedup)

/-- Whether a filter entry slug resolves: it names an existing attribute that
is configured as a ListingAttribute of the listing. This is exactly the
condition under which the two dict lookups of the attributes loop succeed. -/
def filter_entry_resolves (attrTable : List Attribute)
    (laTable : List ListingAttribute) (listing : Catalog) (slug : String) :
    Bool :=
  match attrTable.find? (fun a => a.slug = slug) with
  | none => false
  | some a => laTable.any (fun la =>
      la.listing_id = listing.id && la.attribute_id = a.id)

/-- The per-entry product predicate of the attributes spec with the slug
resolved against the attribute table; an unresolvable entry matches
nothing. -/
def attr_entry_matches (attrTable : List Attribute)
    (sv : String × List FilterValue) (p : Product) : Bool :=
  match attrTable.find? (fun a => a.slug = sv.1) with
  | none => false
  | some a => matches_qs_values a sv.2 p

theorem find?_filter_of_implies {α : Type} (l : List α) (pq f : α → Bool)
    (h : ∀ a, f a = true → pq a = true) :
    (l.filter pq).find? f = l.find? f := by
  induction l with
  | nil => rfl
  | cons a t ih =>
      by_cases hf : f a = true
      · rw [List.filter_cons, if_pos (h a hf)]
        simp [List.find?_cons, hf]
      · rw [Bool.not_eq_true] at hf
        by_cases hpq : pq a = true
        · rw [List.filter_cons, if_pos hpq]
          simp [List.find?_cons, hf, ih]
        · rw [List.filter_cons, if_neg hpq]
          simp [List.find?_cons, hf, ih]

theorem attributes_dict_lookup_mem (attrTable : List Attribute)
    (keys : List String) (slug : String) (hmem : slug ∈ keys) :
    attributes_dict_lookup attrTable keys slug
      = attrTable.find? (fun a => a.slug = slug) := by
  unfold attributes_dict_lookup
  apply find?_filter_of_implies
  intro a ha
  simp only [decide_eq_true_eq] at ha ⊢
  rw [ha]
  exact hmem

theorem la_dict_lookup_isSome (laTable : List ListingAttribute)
    (listing : Catalog) (attr_ids : List ℕ) (a_id : ℕ)
    (hmem : a_id ∈ attr_ids)
    (h : laTable.any (fun la =>
      la.listing_id = listing.id && la.attribute_id = a_id) = true) :
    (la_dict_lookup laTable listing attr_ids a_id).isSome = true := by
  unfold la_dict_lookup
  rw [List.find?_isSome]
  rw [List.any_eq_true] at h
  obtain ⟨la, hla, hcond⟩ := h
  simp only [Bool.and_eq_true, decide_eq_true_eq] at hcond
  refine ⟨la, List.mem_filter.mpr ⟨hla, ?_⟩, ?_⟩
  · simp only [Bool.and_eq_true, decide_eq_true_eq]
    exact ⟨hcond.1, hcond.2 ▸ hmem⟩
  · simp only [decide_eq_true_eq]
    exact hcond.2

theorem la_dict_lookup_eq_none (laTable : List ListingAttribute)
    (listing : Catalog) (attr_ids : List ℕ) (a_id : ℕ)
    (h : laTable.any (fun la =>
      la.listing_id = listing.id && la.attribute_id = a_id) = false) :
    la_dict_lookup laTable listing attr_ids a_id = none := by
  unfold la_dict_lookup
  rw [List.find?_eq_none]
  intro la hla
  rw [List.mem_filter] at hla
  simp only [Bool.and_eq_true, decide_eq_true_eq] at hla
  simp only [decide_eq_true_eq]
  intro hcontra
  have : laTable.any (fun la =>
      la.listing_id = listing.id && la.attribute_id = a_id) = true := by
    rw [List.any_eq_true]
    exact ⟨la, hla.1, by
      simp only [Bool.and_eq_true, decide_eq_true_eq]
      exact ⟨hla.2.1, hcontra⟩⟩
  rw [h] at this
  exact Bool.false_ne_true this

theorem filter_mem_ids_eq (products : List Product) (pred : Product → Bool)
    (hnd : (products.map Product.id).Nodup) :
    products.filter (fun p =>
        p.id ∈ (products.filter pred).map (fun q => q.id))
      = products.filter pred := by
  apply List.filter_congr
  intro p hp
  by_cases hpred : pred p = true
  · have hin : p.id ∈ (products.filter pred).map (fun q => q.id) :=
      List.mem_map_of_mem _ (List.mem_filter.mpr ⟨hp, hpred⟩)
    simp [hin, hpred]
  · have hout : p.id ∉ (products.filter pred).map (fun q => q.id) := by
      intro hmem
      rw [List.mem_map] at hmem
      obtain ⟨q, hq, hid⟩ := hmem
      rw [List.mem_filter] at hq
      have hqp : q = p := List.inj_on_of_nodup_map hnd hq.1 hp hid
      exact hpred (hqp ▸ hq.2)
    rw [Bool.not_eq_true] at hpred
    simp [hout, hpred]

theorem filter_attributes_loop_characterize (attrTable : List Attribute)
    (laTable : List ListingAttribute) (listing : Catalog)
    (keys : List String) :
    ∀ attrs : List (String × List FilterValue),
      (∀ sv ∈ attrs, sv.1 ∈ keys) →
      (∀ sv ∈ attrs,
        filter_entry_resolves attrTable laTable listing sv.1 = true) →
      ∀ products : List Product, (products.map Product.id).Nodup →
        filter_attributes_loop attrTable laTable listing keys attrs products
          = some (products.filter (fun p =>
              attrs.all (fun sv => attr_entry_matches attrTable sv p))) := by
  intro attrs
  induction attrs with
  | nil =>
      intro _ _ products _
      simp [filter_attributes_loop]
  | cons sv rest ih =>
      intro hkeys hres products hnd
      obtain ⟨s, v⟩ := sv
      have hs : s ∈ keys := hkeys (s, v) (List.mem_cons_self _ _)
      have hr : filter_entry_resolves attrTable laTable listing s = true :=
        hres (s, v) (List.mem_cons_self _ _)
      unfold filter_entry_resolves at hr
      cases hfind : attrTable.find? (fun a => a.slug = s) with
      | none =>
          rw [hfind] at hr
          exact absurd hr (by simp)
      | some a =>
          rw [hfind] at hr
          have hlookup : attributes_dict_lookup attrTable keys s = some a := by
            rw [attributes_dict_lookup_mem attrTable keys s hs, hfind]
          have haid : a.id
              ∈ (attrTable.filter (fun x => x.slug ∈ keys)).map
                (fun x => x.id) := by
            apply List.mem_map_of_mem
            rw [List.mem_filter]
            refine ⟨List.mem_of_find?_eq_some hfind, ?_⟩
            have hpa := List.find?_some hfind
            simp only [decide_eq_true_eq] at hpa ⊢
            rw [hpa]
            exact hs
          have hla := la_dict_lookup_isSome laTable listing _ a.id haid hr
          obtain ⟨la, hla_eq⟩ := Option.isSome_iff_exists.mp hla
          show filter_attributes_loop attrTable laTable listing keys
              ((s, v) :: rest) products = _
          simp only [filter_attributes_loop, hlookup, hla_eq]
          rw [filter_mem_ids_eq products _ hnd]
          have hnd2 : ((products.filter (matches_qs_values a v)).map
              Product.id).Nodup :=
            List.Nodup.sublist
              (List.Sublist.map _ (List.filter_sublist products)) hnd
          rw [ih (fun x hx => hkeys x (List.mem_cons_of_mem _ hx))
            (fun x hx => hres x (List.mem_cons_of_mem _ hx)) _ hnd2]
          congr 1
          rw [List.filter_filter]
          apply List.filter_congr
          intro p _
          simp only [List.all_cons]
          rw [show attr_entry_matches attrTable (s, v) p
              = matches_qs_values a v p from by
            unfold attr_entry_matches
            rw [hfind]]
          exact Bool.and_comm _ _

theorem get_products_by_filter_characterize (attrTable : List Attribute)
    (laTable : List ListingAttribute) (products : List Product)
    (listing : Catalog) (attrs : List (String × List FilterValue))
    (hids : (products.map Product.id).Nodup)
    (hres : ∀ sv ∈ attrs,
      filter_entry_resolves attrTable laTable listing sv.1 = true) :
    get_products_by_filter attrTable laTable products listing none none
        (some attrs)
      = some ((products.filter (fun p => listing ∈ p._tags)).filter
          (fun p => attrs.all (fun sv => attr_entry_matches attrTable sv p))) := by
  have hbase_nd : ((products.filter (fun p => listing ∈ p._tags)).map
      Product.id).Nodup :=
    List.Nodup.sublist (List.Sublist.map _ (List.filter_sublist products)) hids
  have hbase_nodup : (products.filter (fun p => listing ∈ p._tags)).Nodup :=
    List.Nodup.of_map Product.id hbase_nd
  cases attrs with
  | nil =>
      simp only [get_products_by_filter]
      have h1 : (products.filter (fun p => listing ∈ p._tags)).filter
          (fun p => p.id ∈ (products.filter (fun p => listing ∈ p._tags)).map
            (fun q => q.id))
          = products.filter (fun p => listing ∈ p._tags) := by
        rw [List.filter_eq_self]
        intro p hp
        simp only [decide_eq_true_eq]
        exact List.mem_map_of_mem _ hp
      rw [h1, List.Nodup.dedup hbase_nodup]
      simp
  | cons sv rest =>
      simp only [get_products_by_filter]
      rw [filter_attributes_loop_characterize attrTable laTable listing _
        (sv :: rest) (fun x hx => List.mem_map_of_mem _ hx) hres _ hbase_nd]
      have hnodup2 : ((products.filter (fun p => listing ∈ p._tags)).filter
          (fun p => (sv :: rest).all
            (fun x => attr_entry_matches attrTable x p))).Nodup :=
        List.Nodup.sublist (List.filter_sublist _) hbase_nodup
      show some (((products.filter (fun p => listing ∈ p._tags)).filter
          (fun p => (sv :: rest).all
            (fun x => attr_entry_matches attrTable x p))).dedup) = _
      rw [List.Nodup.dedup hnodup2]

/-- C6: with no tag or price filters, the result of get_products_by_filter on
an attributes spec equals the set of listing-tagged candidates matching at
least one requested value of every requested attribute (OR within one
attribute entry, AND across entries), and removing one attribute key from the
spec never shrinks the result set. Hypotheses: product ids are unique (the
primary key invariant) and every requested slug resolves to an attribute
configured for the listing. -/
theorem C6_facet_or_and_law (attrTable : List Attribute)
    (laTable : List ListingAttribute) (products : List Product)
    (listing : Catalog) (attrs : List (String × List FilterValue))
    (k : String)
    (hids : (products.map Product.id).Nodup)
    (hres : ∀ sv ∈ attrs,
      filter_entry_resolves attrTable laTable listing sv.1 = true) :
    get_products_by_filter attrTable laTable products listing none none
        (some attrs)
      = some ((products.filter (fun p => listing ∈ p._tags)).filter
          (fun p => attrs.all (fun sv => attr_entry_matches attrTable sv p)))
    ∧ (get_products_by_filter attrTable laTable products listing none none
          (some attrs)).getD []
        ⊆ (get_products_by_filter attrTable laTable products listing none none
            (some (attrs.filter (fun sv => ¬ sv.1 = k)))).getD [] := by
  have hchar := get_products_by_filter_characterize attrTable laTable products
    listing attrs hids hres
  have hres2 : ∀ sv ∈ attrs.filter (fun sv => ¬ sv.1 = k),
      filter_entry_resolves attrTable laTable listing sv.1 = true :=
    fun sv hsv => hres sv (List.mem_of_mem_filter hsv)
  have hchar2 := get_products_by_filter_characterize attrTable laTable products
    listing (attrs.filter (fun sv => ¬ sv.1 = k)) hids hres2
  refine ⟨hchar, ?_⟩
  rw [hchar, hchar2]
  simp only [Option.getD_some]
  intro p hp
  rw [List.mem_filter] at hp ⊢
  refine ⟨hp.1, ?_⟩
  rw [List.all_eq_true] at hp ⊢
  intro sv hsv
  exact hp.2 sv (List.mem_of_mem_filter hsv)

theorem filter_attributes_loop_unresolved (attrTable : List Attribute)
    (laTable : List ListingAttribute) (listing : Catalog)
    (keys : List String) (slug : String) (values : List FilterValue)
    (hbad : filter_entry_resolves attrTable laTable listing slug = false) :
    ∀ attrs : List (String × List FilterValue), (slug, values) ∈ attrs →
      (∀ sv ∈ attrs, sv.1 ∈ keys) →
      ∀ products : List Product,
        filter_attributes_loop attrTable laTable listing keys attrs products
          = none := by
  intro attrs
  induction attrs with
  | nil =>
      intro hmem
      exact absurd hmem (List.not_mem_nil _)
  | cons sv rest ih =>
      intro hmem hkeys products
      obtain ⟨s, v⟩ := sv
      rcases List.mem_cons.mp hmem with heq | hrest
      · have hs : s = slug := by
          injection heq.symm with h1 h2
        subst hs
        have hsk : s ∈ keys := hkeys (s, v) (List.mem_cons_self _ _)
        unfold filter_entry_resolves at hbad
        cases hfind : attrTable.find? (fun a => a.slug = s) with
        | none =>
            have hlook : attributes_dict_lookup attrTable keys s = none := by
              rw [attributes_dict_lookup_mem attrTable keys s hsk, hfind]
            simp [filter_attributes_loop, hlook]
        | some a =>
            rw [hfind] at hbad
            have hla := la_dict_lookup_eq_none laTable listing
              ((attrTable.filter (fun x => x.slug ∈ keys)).map (fun x => x.id))
              a.id hbad
            have hlook : attributes_dict_lookup attrTable keys s = some a := by
              rw [attributes_dict_lookup_mem attrTable keys s hsk, hfind]
            simp [filter_attributes_loop, hlook, hla]
      · cases hl1 : attributes_dict_lookup attrTable keys s with
        | none => simp [filter_attributes_loop, hl1]
        | some a =>
            cases hl2 : la_dict_lookup laTable listing
                ((attrTable.filter (fun x => x.slug ∈ keys)).map
                  (fun x => x.id)) a.id with
            | none => simp [filter_attributes_loop, hl1, hl2]
            | some la =>
                simp only [filter_attributes_loop, hl1, hl2]
                exact ih hrest
                  (fun x hx => hkeys x (List.mem_cons_of_mem _ hx)) _

/-- C8: if the attributes spec passed to get_products_by_filter contains a
slug that does not resolve to a ListingAttribute configured for the listing
(either the attribute row is missing or no ListingAttribute links it to the
listing), the call raises a KeyError from one of the two dict lookups,
modelled as a none result, rather than returning a product set. -/
theorem C8_unknown_attribute_raises (attrTable : List Attribute)
    (laTable : List ListingAttribute) (products : List Product)
    (listing : Catalog) (attrs : List (String × List FilterValue))
    (slug : String) (values : List FilterValue)
    (hmem : (slug, values) ∈ attrs)
    (hbad : filter_entry_resolves attrTable laTable listing slug = false) :
    get_products_by_filter attrTable laTable products listing none none
        (some attrs)
      = none := by
  cases attrs with
  | nil => exact absurd hmem (List.not_mem_nil _)
  | cons sv rest =>
      simp only [get_products_by_filter]
      rw [filter_attributes_loop_unresolved attrTable laTable listing _ slug
        values hbad (sv :: rest) hmem
        (fun x hx => List.mem_map_of_mem _ hx)]

/-- The attribute table of the C6 witness: color and size. -/
def attrT6 : List Attribute :=
  [{ id := 1, slug := "color", type := "SELECT" },
   { id := 2, slug := "size", type := "SELECT" }]

/-- The listing attribute table of the C6 witness: both attributes are
configured for listing 1. -/
def laT6 : List ListingAttribute :=
  [{ listing_id := 1, attribute_id := 1, popular := create_ranking_index },
   { listing_id := 1, attribute_id := 2, popular := create_ranking_index }]

/-- The listing of the C6 witness. -/
def listing6 : Catalog := { id := 1, slug := "smartfony" }

/-- C6 witness product: red color, size M. -/
def p61 : Product :=
  { id := 31, price := 0, discount_percent := 0, quantity := 1,
    publish := true, created_at := 0, _tags := [listing6],
    _product_attributes :=
      [{ attribute_id := 1, _values := [{ value := "Red", slug := "red" }] },
       { attribute_id := 2, _values := [{ value := "M", slug := "m" }] }],
    popular := create_ranking_index }

/-- C6 witness product: blue color, no size. -/
def p62 : Product :=
  { id := 32, price := 0, discount_percent := 0, quantity := 1,
    publish := true, created_at := 0, _tags := [listing6],
    _product_attributes :=
      [{ attribute_id := 1, _values := [{ value := "Blue", slug := "blue" }] }],
    popular := create_ranking_index }

/-- C6 witness product: size M, no color. -/
def p63 : Product :=
  { id := 33, price := 0, discount_percent := 0, quantity := 1,
    publish := true, created_at := 0, _tags := [listing6],
    _product_attributes :=
      [{ attribute_id := 2, _values := [{ value := "M", slug := "m" }] }],
    popular := create_ranking_index }

/-- The attributes spec of the C6 witness: color in red or blue, size m. -/
def attrs6 : List (String × List FilterValue) :=
  [("color", [FilterValue.str "red", FilterValue.str "blue"]),
   ("size", [FilterValue.str "m"])]

/-- C6 witness: on the concrete three-product table, the filter color in red
or blue AND size m returns exactly the product with both, and dropping the
color key keeps the result a subset of the relaxed result. -/
theorem C6_facet_or_and_law_witness :
    get_products_by_filter attrT6 laT6 [p61, p62, p63] listing6 none none
        (some attrs6)
      = some [p61]
    ∧ (get_products_by_filter attrT6 laT6 [p61, p62, p63] listing6 none none
          (some attrs6)).getD []
        ⊆ (get_products_by_filter attrT6 laT6 [p61, p62, p63] listing6 none
            none (some (attrs6.filter (fun sv => ¬ sv.1 = "color")))).getD [] := by
  have h := C6_facet_or_and_law attrT6 laT6 [p61, p62, p63] listing6 attrs6
    "color" (by decide) (by decide)
  exact ⟨h.1.trans (by decide), h.2⟩

/-- The listing of the C8 witness. -/
def listing8 : Catalog := { id := 2, slug := "noutbuki" }

/-- C8 witness: a filter spec naming a slug with no attribute row and no
ListingAttribute produces the error result. -/
theorem C8_unknown_attribute_raises_witness :
    get_products_by_filter [] [] [] listing8 none none
        (some [("ghost", [FilterValue.str "x"])])
      = none :=
  C8_unknown_attribute_raises [] [] [] listing8
    [("ghost", [FilterValue.str "x"])] "ghost" [FilterValue.str "x"]
    (by decide) (by decide)
